import Mathlib

/-!
Shallow embedding of the volume-comparison core of `mtcli-vc`
(`src/mtcli_vc/models/volume_model.py`, `src/mtcli_vc/controllers/volume_controller.py`).

Modelling choices:
* A pandas row of the M1 bar table becomes a `Bar` record; the derived
  columns `date` and `hora` (calendar date and time-of-day in the configured
  time zone) are modelled as naturals (day ordinal, minute-of-day); both
  volume columns are rationals (Python floats carry no NaN here because all
  divisions are guarded in the source).
* `DataFrame.loc[...].sum()` becomes sum over a filtered list.
* `sorted(df["date"].unique(), reverse=True)` becomes an insertion sort by
  `≥` of the deduplicated date column.
* Python exceptions (`ValueError`, `RuntimeError`) become an `Erro` sum type
  and fallible functions return `Except Erro _`.
* The MetaTrader5 fetch performed inside `calcular_volume_comparativo` is an
  external effect; the aggregator is embedded over its outcome
  (`fetch : Except Erro (List Bar)`), and `datetime.now(tz)` over the pair
  `(hoje, hora_atual)`.
-/

namespace MtcliVc

/-- One M1 candle row of the bar table, with the derived `date`/`hora`
columns of `calcular_volume_comparativo` precomputed. -/
structure Bar where
  date : ℕ
  hora : ℕ
  tick_volume : ℚ
  real_volume : ℚ
  deriving DecidableEq

/-- `col_volume = "tick_volume" if volume_type == "tick" else "real_volume"`:
the column of the bar table selected by the volume type. -/
def col_volume (volume_type : String) : Bar → ℚ :=
  if volume_type = "tick" then Bar.tick_volume else Bar.real_volume

/-- `float(df.loc[df["date"] == dia, col].sum())`: full-day sum of the
selected volume column over one calendar date. -/
def sum_full (df : List Bar) (col : Bar → ℚ) (dia : ℕ) : ℚ :=
  ((df.filter (fun b => decide (b.date = dia))).map col).sum

/-- `float(df.loc[(df["date"] == dia) & (df["hora"] <= hora), col].sum())`:
cutoff-limited sum over one calendar date, bars at time-of-day ≤ `hora`. -/
def sum_cutoff (df : List Bar) (col : Bar → ℚ) (dia hora : ℕ) : ℚ :=
  ((df.filter (fun b => decide (b.date = dia ∧ b.hora ≤ hora))).map col).sum

/-- `sorted(df["date"].unique(), reverse=True)`: the distinct calendar dates
of the series in descending order. -/
def datas_unicas_desc (df : List Bar) : List ℕ :=
  List.insertionSort (· ≥ ·) (df.map Bar.date).dedup

/-- The scanning loop of `encontrar_ultimo_dia_com_volume`: walk the dates,
skip `dia >= hoje`, return the first date whose full-day sum is > 0. -/
def busca_dia_valido (df : List Bar) (col : Bar → ℚ) (hoje : ℕ) :
    List ℕ → Option ℕ
  | [] => none
  | dia :: resto =>
    if hoje ≤ dia then busca_dia_valido df col hoje resto
    else if 0 < sum_full df col dia then some dia
    else busca_dia_valido df col hoje resto

/-- `encontrar_ultimo_dia_com_volume(df, hoje, col_volume)`: last trading
date before `hoje` with positive full-day volume, `none` if there is none. -/
def encontrar_ultimo_dia_com_volume (df : List Bar) (hoje : ℕ)
    (col : Bar → ℚ) : Option ℕ :=
  if df.isEmpty then none
  else busca_dia_valido df col hoje (datas_unicas_desc df)

/-- Python exceptions raised by the model layer. -/
inductive Erro where
  | valueError : String → Erro
  | runtimeError : String → Erro
  deriving DecidableEq

/-- `str(exc)`: the message carried by an exception. -/
def Erro.msg : Erro → String
  | .valueError m => m
  | .runtimeError m => m

/-- The result dictionary returned by `calcular_volume_comparativo`
(`hora_atual` and `ultimo_pregao` are kept as raw values rather than
`strftime` strings). -/
structure Resultado where
  symbol : String
  hora_atual : ℕ
  vol_hoje : ℚ
  vol_ontem : ℚ
  vol_medio : ℚ
  perc_ontem : ℚ
  perc_medio : ℚ
  volume_type : String
  days : ℤ
  ultimo_pregao : ℕ
  deriving DecidableEq

/-- `dias_passados = [d for d in sorted(df["date"].unique(), reverse=True)
if d < hoje][:days]`: the averaging candidates, the `days` most recent
dates strictly before `hoje`, taken regardless of validity. -/
def dias_passados_de (df : List Bar) (hoje : ℕ) (days : ℤ) : List ℕ :=
  ((datas_unicas_desc df).filter (fun d => decide (d < hoje))).take days.toNat

/-- The candidates that pass the full-day validity filter of the list
comprehension building `volumes` (`if float(df.loc[df["date"] == d,
col].sum()) > 0`). -/
def pool_valido (df : List Bar) (col : Bar → ℚ) (hoje : ℕ) (days : ℤ) :
    List ℕ :=
  (dias_passados_de df hoje days).filter (fun d => decide (0 < sum_full df col d))

/-- `volumes`: the cutoff-limited sums of the valid candidates. -/
def volumes_de (df : List Bar) (col : Bar → ℚ) (hoje hora : ℕ) (days : ℤ) :
    List ℚ :=
  (pool_valido df col hoje days).map (fun d => sum_cutoff df col d hora)

/-- `vol_medio = sum(volumes) / len(volumes) if volumes else 0.0`. -/
def vol_medio_de (df : List Bar) (col : Bar → ℚ) (hoje hora : ℕ) (days : ℤ) :
    ℚ :=
  if volumes_de df col hoje hora days = [] then 0
  else (volumes_de df col hoje hora days).sum /
    ((volumes_de df col hoje hora days).length : ℚ)

/-- `((a - b) / b * 100.0) if b > 0 else 0.0`: the guarded percentage
delta used for both `perc_ontem` and `perc_medio`. -/
def perc_de (a b : ℚ) : ℚ :=
  if 0 < b then (a - b) / b * 100 else 0

/-- The straight-line tail of `calcular_volume_comparativo` once the last
valid session `ontem` has been found: the sums, the averaging pool, the
guarded percentages and the assembled result dictionary. -/
def montar (symbol : String) (df : List Bar) (days : ℤ) (volume_type : String)
    (hoje hora_atual : ℕ) (ontem : ℕ) : Resultado :=
  ⟨symbol, hora_atual,
    sum_cutoff df (col_volume volume_type) hoje hora_atual,
    sum_cutoff df (col_volume volume_type) ontem hora_atual,
    vol_medio_de df (col_volume volume_type) hoje hora_atual days,
    perc_de (sum_cutoff df (col_volume volume_type) hoje hora_atual)
      (sum_cutoff df (col_volume volume_type) ontem hora_atual),
    perc_de (sum_cutoff df (col_volume volume_type) hoje hora_atual)
      (vol_medio_de df (col_volume volume_type) hoje hora_atual days),
    volume_type, days, ontem⟩

/-- The aggregation part of `calcular_volume_comparativo` on the fetched bar
table: find the last valid session (else `RuntimeError`) and assemble the
result. -/
def agregar (symbol : String) (df : List Bar) (days : ℤ) (volume_type : String)
    (hoje hora_atual : ℕ) : Except Erro Resultado :=
  match encontrar_ultimo_dia_com_volume df hoje (col_volume volume_type) with
  | none => .error (.runtimeError
      "Nao foi possivel encontrar o ultimo dia de pregao valido antes de hoje.")
  | some ontem => .ok (montar symbol df days volume_type hoje hora_atual ontem)

/-- `calcular_volume_comparativo(symbol, days, volume_type)`: validate
`days`, fetch the bars (the fetch outcome is a parameter of the embedding),
then aggregate.  `days` is `Option ℤ` because Python distinguishes `None`
from an integer in the `days is None or days < 1` guard. -/
def calcular_volume_comparativo (symbol : String)
    (fetch : Except Erro (List Bar)) (days : Option ℤ) (volume_type : String)
    (hoje hora_atual : ℕ) : Except Erro Resultado :=
  match days with
  | none => .error (.valueError "O parametro days deve ser inteiro >= 1.")
  | some d =>
    if d < 1 then .error (.valueError "O parametro days deve ser inteiro >= 1.")
    else
      match fetch with
      | .error e => .error e
      | .ok df => agregar symbol df d volume_type hoje hora_atual

/-- What the controller hands to the view: a result dictionary or a
dictionary with the single key `erro`. -/
inductive Saida where
  | resultado : Resultado → Saida
  | erro : String → Saida
  deriving DecidableEq

/-- `obter_comparacao(symbol, days, volume_type)` in
`volume_controller.py`: run the model and convert any exception into the
tagged error output carrying `str(exc)`. -/
def obter_comparacao (symbol : String) (fetch : Except Erro (List Bar))
    (days : Option ℤ) (volume_type : String) (hoje hora_atual : ℕ) : Saida :=
  match calcular_volume_comparativo symbol fetch days volume_type hoje
      hora_atual with
  | .ok r => .resultado r
  | .error e => .erro e.msg

/-!
Pagination fallback of `obter_dados` (the `copy_rates_from` loop used when
the provider caps a request at 1000 candles).  A candle is modelled by its
timestamp; the provider is modelled by the list of successive chunk
responses (an exhausted list stands for an empty/None response, which
breaks the loop).  The cursor update (oldest timestamp of the last chunk)
does not influence which chunks the modelled provider yields, so it is not
carried explicitly.
-/

/-- The `while fetched < total_candles` loop body: break on an empty
response, extend `candles_total` with the chunk, break after a short chunk
(`len(rates_chunk) < chunk`). -/
def pagina_loop (chunk total : ℕ) : List (List ℕ) → ℕ → List ℕ
  | [], _ => []
  | p :: resto, fetched =>
    if total ≤ fetched then []
    else if p = [] then []
    else p ++ (if p.length < chunk then []
      else pagina_loop chunk total resto (fetched + p.length))

/-- `rates = candles_total[::-1]`: the paginated fetch returns the reversed
concatenation of the chunks (the source comment claims this is ascending
chronological order). -/
def obter_dados_paginado (paginas : List (List ℕ)) (chunk total : ℕ) :
    List ℕ :=
  (pagina_loop chunk total paginas 0).reverse

/-!
Connection lifecycle of `obter_dados`: `initialized = mt5.initialize()`
inside a `try`, with `finally: if initialized: try: mt5.shutdown() except:
log`.  The environment records whether `initialize` succeeds, the outcome
of the protected body (symbol check + fetch), and whether `shutdown`
raises; the session outcome records the value/exception of the whole call
and whether `shutdown` was invoked.
-/

/-- External behaviour of MetaTrader5 for one `obter_dados` call. -/
structure Mt5Env where
  init_ok : Bool
  busca : Except Erro (List Bar)
  shutdown_falha : Bool

/-- Outcome of one `obter_dados` call together with whether the `finally`
block invoked `mt5.shutdown()`. -/
structure Sessao where
  resultado : Except Erro (List Bar)
  shutdown_chamado : Bool

/-- The `try/finally` of `obter_dados`: when `initialize` fails the body
raises `RuntimeError` and the `finally` skips `shutdown` (nothing was
acquired); when it succeeds the body outcome is returned and `shutdown` is
always invoked, its own failure being caught and logged (`except:
log.exception`), never replacing the body outcome. -/
def obter_dados_sessao (env : Mt5Env) : Sessao :=
  if env.init_ok then ⟨env.busca, true⟩
  else ⟨.error (.runtimeError "Erro ao conectar ao MetaTrader5"), false⟩

/-- Concrete bar table used by witnesses and counterexamples: today is
date 14 (volume 7 at time 100), dates 13, 12, 11 have zero volume and the
single valid prior date is 10 (volume 5 at time 100). -/
def df_exemplo : List Bar :=
  [⟨14, 100, 7, 7⟩, ⟨13, 100, 0, 0⟩, ⟨12, 100, 0, 0⟩,
   ⟨11, 100, 0, 0⟩, ⟨10, 100, 5, 5⟩]

/-- A two-day bar table where the single valid prior date (13) is among
the averaging candidates. -/
def df_exemplo2 : List Bar := [⟨14, 100, 7, 7⟩, ⟨13, 100, 5, 5⟩]

/-! ### Helper lemmas -/

theorem mem_datas_unicas_desc {df : List Bar} {d : ℕ} :
    d ∈ datas_unicas_desc df ↔ ∃ b ∈ df, b.date = d := by
  unfold datas_unicas_desc
  rw [List.mem_insertionSort, List.mem_dedup, List.mem_map]

theorem sorted_ge_datas_unicas_desc (df : List Bar) :
    (datas_unicas_desc df).Sorted (· ≥ ·) :=
  List.sorted_insertionSort _ _

theorem nodup_datas_unicas_desc (df : List Bar) :
    (datas_unicas_desc df).Nodup :=
  (List.perm_insertionSort _ _).nodup_iff.mpr (List.nodup_dedup _)

theorem sorted_gt_datas_unicas_desc (df : List Bar) :
    (datas_unicas_desc df).Sorted (· > ·) :=
  ((sorted_ge_datas_unicas_desc df).and (nodup_datas_unicas_desc df)).imp
    (fun hab => lt_of_le_of_ne hab.1 (Ne.symm hab.2))

theorem busca_dia_valido_mem (df : List Bar) (col : Bar → ℚ) (hoje : ℕ) :
    ∀ l d, busca_dia_valido df col hoje l = some d →
      d ∈ l ∧ d < hoje ∧ 0 < sum_full df col d := by
  intro l
  induction l with
  | nil => intro d h; simp [busca_dia_valido] at h
  | cons dia resto ih =>
    intro d h
    unfold busca_dia_valido at h
    by_cases h1 : hoje ≤ dia
    · rw [if_pos h1] at h
      obtain ⟨hm, hlt, hp⟩ := ih d h
      exact ⟨List.mem_cons_of_mem _ hm, hlt, hp⟩
    · rw [if_neg h1] at h
      by_cases h2 : 0 < sum_full df col dia
      · rw [if_pos h2] at h
        cases h
        exact ⟨List.mem_cons_self _ _, Nat.lt_of_not_le h1, h2⟩
      · rw [if_neg h2] at h
        obtain ⟨hm, hlt, hp⟩ := ih d h
        exact ⟨List.mem_cons_of_mem _ hm, hlt, hp⟩

theorem busca_dia_valido_max (df : List Bar) (col : Bar → ℚ) (hoje : ℕ) :
    ∀ l, l.Sorted (· ≥ ·) → ∀ d, busca_dia_valido df col hoje l = some d →
      ∀ e ∈ l, e < hoje → 0 < sum_full df col e → e ≤ d := by
  intro l
  induction l with
  | nil => intro _ d h; simp [busca_dia_valido] at h
  | cons dia resto ih =>
    intro hs d h e he hlt hpos
    have hd : ∀ x ∈ resto, dia ≥ x := List.rel_of_sorted_cons hs
    unfold busca_dia_valido at h
    by_cases h1 : hoje ≤ dia
    · rw [if_pos h1] at h
      rcases List.mem_cons.mp he with rfl | he2
      · exact absurd hlt (Nat.not_lt.mpr h1)
      · exact ih hs.of_cons d h e he2 hlt hpos
    · rw [if_neg h1] at h
      by_cases h2 : 0 < sum_full df col dia
      · rw [if_pos h2] at h
        cases h
        rcases List.mem_cons.mp he with rfl | he2
        · exact le_refl _
        · exact hd e he2
      · rw [if_neg h2] at h
        rcases List.mem_cons.mp he with rfl | he2
        · exact absurd hpos h2
        · exact ih hs.of_cons d h e he2 hlt hpos

theorem busca_dia_valido_none (df : List Bar) (col : Bar → ℚ) (hoje : ℕ) :
    ∀ l, busca_dia_valido df col hoje l = none →
      ∀ e ∈ l, e < hoje → ¬ 0 < sum_full df col e := by
  intro l
  induction l with
  | nil => intro _ e he; simp at he
  | cons dia resto ih =>
    intro h e he hlt
    unfold busca_dia_valido at h
    by_cases h1 : hoje ≤ dia
    · rw [if_pos h1] at h
      rcases List.mem_cons.mp he with rfl | he2
      · exact absurd hlt (Nat.not_lt.mpr h1)
      · exact ih h e he2 hlt
    · rw [if_neg h1] at h
      by_cases h2 : 0 < sum_full df col dia
      · rw [if_pos h2] at h; cases h
      · rw [if_neg h2] at h
        rcases List.mem_cons.mp he with rfl | he2
        · exact h2
        · exact ih h e he2 hlt

theorem encontrar_some (df : List Bar) (hoje : ℕ) (col : Bar → ℚ) (d : ℕ)
    (h : encontrar_ultimo_dia_com_volume df hoje col = some d) :
    (∃ b ∈ df, b.date = d) ∧ d < hoje ∧ 0 < sum_full df col d ∧
      ∀ e, (∃ b ∈ df, b.date = e) → e < hoje → 0 < sum_full df col e →
        e ≤ d := by
  unfold encontrar_ultimo_dia_com_volume at h
  by_cases hdf : df.isEmpty
  · rw [if_pos hdf] at h; cases h
  · rw [if_neg hdf] at h
    obtain ⟨hm, hlt, hpos⟩ := busca_dia_valido_mem df col hoje _ d h
    refine ⟨mem_datas_unicas_desc.mp hm, hlt, hpos, ?_⟩
    intro e hme helt hepos
    exact busca_dia_valido_max df col hoje _ (sorted_ge_datas_unicas_desc df)
      d h e (mem_datas_unicas_desc.mpr hme) helt hepos

theorem encontrar_none (df : List Bar) (hoje : ℕ) (col : Bar → ℚ)
    (h : encontrar_ultimo_dia_com_volume df hoje col = none) :
    ∀ e, (∃ b ∈ df, b.date = e) → e < hoje → ¬ 0 < sum_full df col e := by
  intro e hme helt
  unfold encontrar_ultimo_dia_com_volume at h
  by_cases hdf : df.isEmpty
  · obtain ⟨b, hb, _⟩ := hme
    rw [List.isEmpty_iff] at hdf
    subst hdf
    cases hb
  · rw [if_neg hdf] at h
    exact busca_dia_valido_none df col hoje _ h e
      (mem_datas_unicas_desc.mpr hme) helt

theorem encontrar_some_of_valido (df : List Bar) (hoje : ℕ) (col : Bar → ℚ)
    (e : ℕ) (hme : ∃ b ∈ df, b.date = e) (helt : e < hoje)
    (hpos : 0 < sum_full df col e) :
    ∃ d, encontrar_ultimo_dia_com_volume df hoje col = some d := by
  cases hh : encontrar_ultimo_dia_com_volume df hoje col with
  | none => exact absurd hpos (encontrar_none df hoje col hh e hme helt)
  | some d => exact ⟨d, rfl⟩

theorem calcular_ok_inv {symbol : String} {df : List Bar} {days : ℤ}
    {vt : String} {hoje hora : ℕ} {r : Resultado}
    (h : calcular_volume_comparativo symbol (.ok df) (some days) vt hoje hora
      = .ok r) :
    1 ≤ days ∧ ∃ ontem,
      encontrar_ultimo_dia_com_volume df hoje (col_volume vt) = some ontem ∧
      r = montar symbol df days vt hoje hora ontem := by
  have h2 : (if days < 1 then
      (Except.error (Erro.valueError "O parametro days deve ser inteiro >= 1.")
        : Except Erro Resultado)
      else agregar symbol df days vt hoje hora) = .ok r := h
  clear h
  by_cases hd : days < 1
  · rw [if_pos hd] at h2; cases h2
  · rw [if_neg hd] at h2
    unfold agregar at h2
    cases he : encontrar_ultimo_dia_com_volume df hoje (col_volume vt) with
    | none => rw [he] at h2; cases h2
    | some ontem =>
      rw [he] at h2
      cases h2
      exact ⟨by omega, ontem, rfl, rfl⟩

theorem montar_vol_hoje (symbol : String) (df : List Bar) (days : ℤ)
    (vt : String) (hoje hora ontem : ℕ) :
    (montar symbol df days vt hoje hora ontem).vol_hoje =
      sum_cutoff df (col_volume vt) hoje hora := rfl

theorem montar_vol_ontem (symbol : String) (df : List Bar) (days : ℤ)
    (vt : String) (hoje hora ontem : ℕ) :
    (montar symbol df days vt hoje hora ontem).vol_ontem =
      sum_cutoff df (col_volume vt) ontem hora := rfl

theorem montar_vol_medio (symbol : String) (df : List Bar) (days : ℤ)
    (vt : String) (hoje hora ontem : ℕ) :
    (montar symbol df days vt hoje hora ontem).vol_medio =
      vol_medio_de df (col_volume vt) hoje hora days := rfl

theorem montar_perc_ontem (symbol : String) (df : List Bar) (days : ℤ)
    (vt : String) (hoje hora ontem : ℕ) :
    (montar symbol df days vt hoje hora ontem).perc_ontem =
      perc_de (sum_cutoff df (col_volume vt) hoje hora)
        (sum_cutoff df (col_volume vt) ontem hora) := rfl

theorem montar_perc_medio (symbol : String) (df : List Bar) (days : ℤ)
    (vt : String) (hoje hora ontem : ℕ) :
    (montar symbol df days vt hoje hora ontem).perc_medio =
      perc_de (sum_cutoff df (col_volume vt) hoje hora)
        (vol_medio_de df (col_volume vt) hoje hora days) := rfl

theorem montar_ultimo_pregao (symbol : String) (df : List Bar) (days : ℤ)
    (vt : String) (hoje hora ontem : ℕ) :
    (montar symbol df days vt hoje hora ontem).ultimo_pregao = ontem := rfl

theorem sum_cutoff_nonneg {df : List Bar} {col : Bar → ℚ}
    (h : ∀ b ∈ df, 0 ≤ col b) (dia hora : ℕ) :
    0 ≤ sum_cutoff df col dia hora := by
  unfold sum_cutoff
  apply List.sum_nonneg
  intro x hx
  rw [List.mem_map] at hx
  obtain ⟨b, hb, rfl⟩ := hx
  exact h b (List.mem_filter.mp hb).1

theorem vol_medio_de_nonneg {df : List Bar} {col : Bar → ℚ}
    (h : ∀ b ∈ df, 0 ≤ col b) (hoje hora : ℕ) (days : ℤ) :
    0 ≤ vol_medio_de df col hoje hora days := by
  unfold vol_medio_de
  split
  · exact le_refl 0
  · apply div_nonneg
    · apply List.sum_nonneg
      intro x hx
      unfold volumes_de at hx
      rw [List.mem_map] at hx
      obtain ⟨d, _, rfl⟩ := hx
      exact sum_cutoff_nonneg h d hora
    · exact Nat.cast_nonneg _

theorem perc_de_ge_neg_cem {a b : ℚ} (ha : 0 ≤ a) : -100 ≤ perc_de a b := by
  unfold perc_de
  split
  · rename_i hb
    rw [div_mul_eq_mul_div, le_div_iff₀ hb]
    linarith
  · norm_num

/-- Concrete evaluation of the comparison on `df_exemplo` (today 14,
cutoff 600, days 3): the last valid session is date 10. -/
theorem eval_calcular_exemplo :
    calcular_volume_comparativo "WIN" (.ok df_exemplo) (some 3) "tick" 14 600
      = .ok (montar "WIN" df_exemplo 3 "tick" 14 600 10) := by
  norm_num [calcular_volume_comparativo, agregar,
    encontrar_ultimo_dia_com_volume, datas_unicas_desc, busca_dia_valido,
    sum_full, col_volume, df_exemplo, List.insertionSort, List.orderedInsert,
    List.dedup]

/-- Concrete evaluation of the comparison on `df_exemplo2`: the last valid
session is date 13. -/
theorem eval_calcular_exemplo2 :
    calcular_volume_comparativo "WIN" (.ok df_exemplo2) (some 3) "tick" 14 600
      = .ok (montar "WIN" df_exemplo2 3 "tick" 14 600 13) := by
  norm_num [calcular_volume_comparativo, agregar,
    encontrar_ultimo_dia_com_volume, datas_unicas_desc, busca_dia_valido,
    sum_full, col_volume, df_exemplo2, List.insertionSort, List.orderedInsert,
    List.dedup]

/-! ### Claim theorems -/

/-- C1: for every non-empty bar series and valid `days`, a successful
comparison chooses as `ultimo_pregao` the greatest date present in the
series that is strictly before today and has full-day volume > 0 (i.e. the
first such date in descending scan order), and reports as `vol_ontem` the
cutoff-limited (not full-day) sum of that date; when no prior date has
positive full-day volume the computation fails with the `RuntimeError`
standing for `NoPriorSession`. -/
theorem C1_ultima_sessao (symbol : String) (df : List Bar) (days : ℤ)
    (vt : String) (hoje hora : ℕ) (_hdf : df ≠ []) (hdays : 1 ≤ days) :
    (∀ r, calcular_volume_comparativo symbol (.ok df) (some days) vt hoje hora
        = .ok r →
      (∃ b ∈ df, b.date = r.ultimo_pregao) ∧ r.ultimo_pregao < hoje ∧
      0 < sum_full df (col_volume vt) r.ultimo_pregao ∧
      (∀ e, (∃ b ∈ df, b.date = e) → e < hoje →
        0 < sum_full df (col_volume vt) e → e ≤ r.ultimo_pregao) ∧
      r.vol_ontem = sum_cutoff df (col_volume vt) r.ultimo_pregao hora) ∧
    ((∀ e, (∃ b ∈ df, b.date = e) → e < hoje →
        ¬ 0 < sum_full df (col_volume vt) e) →
      calcular_volume_comparativo symbol (.ok df) (some days) vt hoje hora
        = .error (.runtimeError
        "Nao foi possivel encontrar o ultimo dia de pregao valido antes de hoje.")) := by
  constructor
  · intro r hok
    obtain ⟨hd1, ontem, he, hr⟩ := calcular_ok_inv hok
    obtain ⟨hm, hlt, hpos, hmax⟩ := encontrar_some df hoje (col_volume vt)
      ontem he
    subst hr
    exact ⟨hm, hlt, hpos, hmax, rfl⟩
  · intro hnone
    have he : encontrar_ultimo_dia_com_volume df hoje (col_volume vt)
        = none := by
      cases hh : encontrar_ultimo_dia_com_volume df hoje (col_volume vt) with
      | none => rfl
      | some d =>
        obtain ⟨hm, hlt, hpos, _⟩ := encontrar_some df hoje (col_volume vt)
          d hh
        exact absurd hpos (hnone d hm hlt)
    have hred : calcular_volume_comparativo symbol (.ok df) (some days) vt
        hoje hora = if days < 1 then
          .error (.valueError "O parametro days deve ser inteiro >= 1.")
        else agregar symbol df days vt hoje hora := rfl
    rw [hred, if_neg (by omega : ¬ days < 1)]
    unfold agregar
    rw [he]

/-- Witness for C1 at `df_exemplo` (today = 14, cutoff = 600, days = 3). -/
theorem C1_ultima_sessao_witness :
    df_exemplo ≠ [] ∧ (1 : ℤ) ≤ 3 ∧
    ((∀ r, calcular_volume_comparativo "WIN" (.ok df_exemplo) (some 3) "tick"
        14 600 = .ok r →
      (∃ b ∈ df_exemplo, b.date = r.ultimo_pregao) ∧ r.ultimo_pregao < 14 ∧
      0 < sum_full df_exemplo (col_volume "tick") r.ultimo_pregao ∧
      (∀ e, (∃ b ∈ df_exemplo, b.date = e) → e < 14 →
        0 < sum_full df_exemplo (col_volume "tick") e →
          e ≤ r.ultimo_pregao) ∧
      r.vol_ontem = sum_cutoff df_exemplo (col_volume "tick") r.ultimo_pregao
        600) ∧
    ((∀ e, (∃ b ∈ df_exemplo, b.date = e) → e < 14 →
        ¬ 0 < sum_full df_exemplo (col_volume "tick") e) →
      calcular_volume_comparativo "WIN" (.ok df_exemplo) (some 3) "tick" 14
        600 = .error (.runtimeError
        "Nao foi possivel encontrar o ultimo dia de pregao valido antes de hoje."))) :=
  ⟨by decide, by decide,
    C1_ultima_sessao "WIN" df_exemplo 3 "tick" 14 600 (by decide) (by decide)⟩

/-- C2 as stated is false at a concrete input: in `df_exemplo` with
`days = 3` exactly one prior date (10) is valid and its cutoff-limited sum
is 5, yet the reported average is 0, because the three more recent
zero-volume dates 13, 12, 11 exhaust the candidate list before date 10 is
reached. -/
theorem C2_contraexemplo :
    ((datas_unicas_desc df_exemplo).filter (fun d =>
      decide (d < 14 ∧ 0 < sum_full df_exemplo (col_volume "tick") d))
      = [10]) ∧
    sum_cutoff df_exemplo (col_volume "tick") 10 600 = 5 ∧
    calcular_volume_comparativo "WIN" (.ok df_exemplo) (some 3) "tick" 14 600
      = .ok (montar "WIN" df_exemplo 3 "tick" 14 600 10) ∧
    (montar "WIN" df_exemplo 3 "tick" 14 600 10).vol_medio = 0 ∧
    (montar "WIN" df_exemplo 3 "tick" 14 600 10).vol_medio ≠
      sum_cutoff df_exemplo (col_volume "tick") 10 600 := by
  refine ⟨?_, ?_, eval_calcular_exemplo, ?_, ?_⟩
  · norm_num [datas_unicas_desc, sum_full, col_volume, df_exemplo,
      List.insertionSort, List.orderedInsert, List.dedup, List.filter]
  · norm_num [sum_cutoff, col_volume, df_exemplo, List.filter]
  · norm_num [montar, vol_medio_de, volumes_de, pool_valido, dias_passados_de,
      datas_unicas_desc, sum_full, col_volume, df_exemplo,
      List.insertionSort, List.orderedInsert, List.dedup, List.filter]
  · norm_num [montar, vol_medio_de, volumes_de, pool_valido, dias_passados_de,
      datas_unicas_desc, sum_full, sum_cutoff, col_volume, df_exemplo,
      List.insertionSort, List.orderedInsert, List.dedup, List.filter]

/-- C2 (amended): for every successful comparison the candidate pool is
the `days` most recent calendar dates strictly before today, selected
regardless of validity (conjuncts 1-4: candidates are prior dates of the
series, strictly descending, `min days n` many where `n` counts the prior
dates, and every prior date left out is older than every candidate); the
reported average is the arithmetic mean of the cutoff-limited sums of the
valid candidates and 0 when none is valid (conjunct 5); and when exactly
one **candidate** is valid the average equals that candidate's
cutoff-limited sum (conjunct 6 — amended from "only one prior valid day
exists", which fails when that day is not among the `days` most recent
prior dates, see the counterexample). -/
theorem C2_media (symbol : String) (df : List Bar) (days : ℤ) (vt : String)
    (hoje hora : ℕ) (r : Resultado)
    (hok : calcular_volume_comparativo symbol (.ok df) (some days) vt hoje
      hora = .ok r) :
    (∀ c ∈ dias_passados_de df hoje days,
      (∃ b ∈ df, b.date = c) ∧ c < hoje) ∧
    (dias_passados_de df hoje days).Sorted (· > ·) ∧
    (dias_passados_de df hoje days).length = min days.toNat
      ((datas_unicas_desc df).filter (fun d => decide (d < hoje))).length ∧
    (∀ e, (∃ b ∈ df, b.date = e) → e < hoje →
      e ∉ dias_passados_de df hoje days →
      ∀ c ∈ dias_passados_de df hoje days, e < c) ∧
    (r.vol_medio = if pool_valido df (col_volume vt) hoje days = [] then 0
      else ((pool_valido df (col_volume vt) hoje days).map
        (fun d => sum_cutoff df (col_volume vt) d hora)).sum /
        ((pool_valido df (col_volume vt) hoje days).length : ℚ)) ∧
    (∀ d, pool_valido df (col_volume vt) hoje days = [d] →
      r.vol_medio = sum_cutoff df (col_volume vt) d hora) := by
  have hvm : r.vol_medio = vol_medio_de df (col_volume vt) hoje hora days := by
    obtain ⟨_, ontem, _, hr⟩ := calcular_ok_inv hok
    subst hr; rfl
  refine ⟨?_, ?_, ?_, ?_, ?_, ?_⟩
  · intro c hc
    have hc2 : c ∈ (datas_unicas_desc df).filter
        (fun d => decide (d < hoje)) := List.mem_of_mem_take hc
    rw [List.mem_filter] at hc2
    exact ⟨mem_datas_unicas_desc.mp hc2.1, of_decide_eq_true hc2.2⟩
  · exact List.Pairwise.sublist (List.take_sublist _ _)
      ((sorted_gt_datas_unicas_desc df).filter _)
  · exact List.length_take _ _
  · intro e he hlt hnotin c hc
    have hef : e ∈ (datas_unicas_desc df).filter
        (fun d => decide (d < hoje)) := by
      rw [List.mem_filter]
      exact ⟨mem_datas_unicas_desc.mpr he, decide_eq_true hlt⟩
    have hsorted : ((datas_unicas_desc df).filter
        (fun d => decide (d < hoje))).Sorted (· > ·) :=
      (sorted_gt_datas_unicas_desc df).filter _
    rw [← List.take_append_drop days.toNat
      ((datas_unicas_desc df).filter (fun d => decide (d < hoje)))] at hef
    rcases List.mem_append.mp hef with hin | hdrop
    · exact absurd hin hnotin
    · exact hsorted.rel_of_mem_take_of_mem_drop hc hdrop
  · rw [hvm]
    unfold vol_medio_de volumes_de
    by_cases hp : pool_valido df (col_volume vt) hoje days = []
    · rw [if_pos hp, if_pos (by rw [hp]; rfl)]
    · rw [if_neg hp, if_neg fun hmap => hp (List.map_eq_nil_iff.mp hmap),
        List.length_map]
  · intro d hd
    rw [hvm]
    unfold vol_medio_de volumes_de
    rw [hd]
    simp

/-- Witness for the amended C2 at `df_exemplo2` (the single valid prior
date 13 is among the candidates). -/
theorem C2_media_witness :
    calcular_volume_comparativo "WIN" (.ok df_exemplo2) (some 3) "tick" 14 600
      = .ok (montar "WIN" df_exemplo2 3 "tick" 14 600 13) ∧
    ((∀ c ∈ dias_passados_de df_exemplo2 14 3,
      (∃ b ∈ df_exemplo2, b.date = c) ∧ c < 14) ∧
    (dias_passados_de df_exemplo2 14 3).Sorted (· > ·) ∧
    (dias_passados_de df_exemplo2 14 3).length = min (3 : ℤ).toNat
      ((datas_unicas_desc df_exemplo2).filter
        (fun d => decide (d < 14))).length ∧
    (∀ e, (∃ b ∈ df_exemplo2, b.date = e) → e < 14 →
      e ∉ dias_passados_de df_exemplo2 14 3 →
      ∀ c ∈ dias_passados_de df_exemplo2 14 3, e < c) ∧
    ((montar "WIN" df_exemplo2 3 "tick" 14 600 13).vol_medio =
      if pool_valido df_exemplo2 (col_volume "tick") 14 3 = [] then 0
      else ((pool_valido df_exemplo2 (col_volume "tick") 14 3).map
        (fun d => sum_cutoff df_exemplo2 (col_volume "tick") d 600)).sum /
        ((pool_valido df_exemplo2 (col_volume "tick") 14 3).length : ℚ)) ∧
    (∀ d, pool_valido df_exemplo2 (col_volume "tick") 14 3 = [d] →
      (montar "WIN" df_exemplo2 3 "tick" 14 600 13).vol_medio =
        sum_cutoff df_exemplo2 (col_volume "tick") d 600)) :=
  ⟨eval_calcular_exemplo2, C2_media "WIN" df_exemplo2 3 "tick" 14 600
    (montar "WIN" df_exemplo2 3 "tick" 14 600 13) eval_calcular_exemplo2⟩

/-- C3: for every successful comparison, `perc_ontem` equals
`(vol_hoje - vol_ontem) / vol_ontem * 100` when `vol_ontem > 0` and is
exactly 0 when `vol_ontem = 0` (values live in ℚ, where no NaN or
infinity exists); the same holds for `perc_medio` against `vol_medio`. -/
theorem C3_percentuais (symbol : String) (df : List Bar) (days : ℤ)
    (vt : String) (hoje hora : ℕ) (r : Resultado)
    (hok : calcular_volume_comparativo symbol (.ok df) (some days) vt hoje
      hora = .ok r) :
    (0 < r.vol_ontem →
      r.perc_ontem = (r.vol_hoje - r.vol_ontem) / r.vol_ontem * 100) ∧
    (r.vol_ontem = 0 → r.perc_ontem = 0) ∧
    (0 < r.vol_medio →
      r.perc_medio = (r.vol_hoje - r.vol_medio) / r.vol_medio * 100) ∧
    (r.vol_medio = 0 → r.perc_medio = 0) := by
  obtain ⟨_, ontem, _, hr⟩ := calcular_ok_inv hok
  subst hr
  rw [montar_perc_ontem, montar_perc_medio, montar_vol_ontem,
    montar_vol_medio, montar_vol_hoje]
  refine ⟨?_, ?_, ?_, ?_⟩ <;> intro h <;> unfold perc_de
  · rw [if_pos h]
  · rw [h, if_neg (lt_irrefl 0)]
  · rw [if_pos h]
  · rw [h, if_neg (lt_irrefl 0)]

/-- Witness for C3 at `df_exemplo2`. -/
theorem C3_percentuais_witness :
    calcular_volume_comparativo "WIN" (.ok df_exemplo2) (some 3) "tick" 14 600
      = .ok (montar "WIN" df_exemplo2 3 "tick" 14 600 13) ∧
    ((0 < (montar "WIN" df_exemplo2 3 "tick" 14 600 13).vol_ontem →
      (montar "WIN" df_exemplo2 3 "tick" 14 600 13).perc_ontem =
        ((montar "WIN" df_exemplo2 3 "tick" 14 600 13).vol_hoje -
          (montar "WIN" df_exemplo2 3 "tick" 14 600 13).vol_ontem) /
          (montar "WIN" df_exemplo2 3 "tick" 14 600 13).vol_ontem * 100) ∧
    ((montar "WIN" df_exemplo2 3 "tick" 14 600 13).vol_ontem = 0 →
      (montar "WIN" df_exemplo2 3 "tick" 14 600 13).perc_ontem = 0) ∧
    (0 < (montar "WIN" df_exemplo2 3 "tick" 14 600 13).vol_medio →
      (montar "WIN" df_exemplo2 3 "tick" 14 600 13).perc_medio =
        ((montar "WIN" df_exemplo2 3 "tick" 14 600 13).vol_hoje -
          (montar "WIN" df_exemplo2 3 "tick" 14 600 13).vol_medio) /
          (montar "WIN" df_exemplo2 3 "tick" 14 600 13).vol_medio * 100) ∧
    ((montar "WIN" df_exemplo2 3 "tick" 14 600 13).vol_medio = 0 →
      (montar "WIN" df_exemplo2 3 "tick" 14 600 13).perc_medio = 0)) :=
  ⟨eval_calcular_exemplo2, C3_percentuais "WIN" df_exemplo2 3 "tick" 14 600
    (montar "WIN" df_exemplo2 3 "tick" 14 600 13) eval_calcular_exemplo2⟩

/-- C4: a date whose full-day sum is 0 is never chosen as the last valid
session and never enters the averaging pool, whatever its cutoff-limited
sum; and validity is decided by the full-day sum only: a date can be valid
(positive full-day sum) while its cutoff-limited sum is 0 and still be
chosen as the last session (third conjunct exhibits such a series). -/
theorem C4_dia_sem_volume (symbol : String) (df : List Bar) (days : ℤ)
    (vt : String) (hoje hora : ℕ) (d : ℕ)
    (hz : sum_full df (col_volume vt) d = 0) :
    (∀ r, calcular_volume_comparativo symbol (.ok df) (some days) vt hoje
      hora = .ok r → r.ultimo_pregao ≠ d) ∧
    d ∉ pool_valido df (col_volume vt) hoje days ∧
    (∃ df0 : List Bar, ∃ d0 hora0 : ℕ,
      0 < sum_full df0 (col_volume "tick") d0 ∧
      sum_cutoff df0 (col_volume "tick") d0 hora0 = 0 ∧
      encontrar_ultimo_dia_com_volume df0 (d0 + 1) (col_volume "tick")
        = some d0) := by
  refine ⟨?_, ?_, ?_⟩
  · intro r hok
    obtain ⟨_, ontem, he, hr⟩ := calcular_ok_inv hok
    obtain ⟨_, _, hpos, _⟩ := encontrar_some df hoje (col_volume vt) ontem he
    subst hr
    rw [montar_ultimo_pregao]
    intro hcontra
    rw [hcontra, hz] at hpos
    exact lt_irrefl 0 hpos
  · intro hmem
    unfold pool_valido at hmem
    rw [List.mem_filter] at hmem
    have hpos := of_decide_eq_true hmem.2
    rw [hz] at hpos
    exact lt_irrefl 0 hpos
  · refine ⟨[⟨5, 700, 3, 3⟩], 5, 600, ?_, ?_, ?_⟩
    · norm_num [sum_full, col_volume, List.filter]
    · norm_num [sum_cutoff, col_volume, List.filter]
    · norm_num [encontrar_ultimo_dia_com_volume, datas_unicas_desc,
        busca_dia_valido, sum_full, col_volume, List.insertionSort,
        List.orderedInsert, List.dedup, List.filter]

/-- Witness for C4 at `df_exemplo` with the zero-volume date 13. -/
theorem C4_dia_sem_volume_witness :
    sum_full df_exemplo (col_volume "tick") 13 = 0 ∧
    ((∀ r, calcular_volume_comparativo "WIN" (.ok df_exemplo) (some 3) "tick"
      14 600 = .ok r → r.ultimo_pregao ≠ 13) ∧
    13 ∉ pool_valido df_exemplo (col_volume "tick") 14 3 ∧
    (∃ df0 : List Bar, ∃ d0 hora0 : ℕ,
      0 < sum_full df0 (col_volume "tick") d0 ∧
      sum_cutoff df0 (col_volume "tick") d0 hora0 = 0 ∧
      encontrar_ultimo_dia_com_volume df0 (d0 + 1) (col_volume "tick")
        = some d0)) :=
  ⟨by norm_num [sum_full, col_volume, df_exemplo, List.filter],
    C4_dia_sem_volume "WIN" df_exemplo 3 "tick" 14 600 13
      (by norm_num [sum_full, col_volume, df_exemplo, List.filter])⟩

/-- C5 fails on the code: with two ascending provider pages [5, 6] and
[2, 3] (page cap 2, requested window 100 candles), the paginated fallback
returns [3, 2, 6, 5] — the plain reverse of the concatenated pages — which
is not sorted ascending by timestamp, although each page was ascending and
the source comment (`inverter para ordem cronologica crescente`) claims
the reversal restores ascending chronological order.  No re-sort is
performed. -/
theorem C5_paginacao_contraexemplo :
    obter_dados_paginado [[5, 6], [2, 3]] 2 100 = [3, 2, 6, 5] ∧
    List.Sorted (· ≤ ·) [5, 6] ∧ List.Sorted (· ≤ ·) [2, 3] ∧
    ¬ List.Sorted (· ≤ ·) (obter_dados_paginado [[5, 6], [2, 3]] 2 100) := by
  decide

/-- C6: for `days = None` or `days < 1` the comparison fails with the
`ValueError` standing for `InvalidArgument`, whatever the fetch outcome
would be (the guard precedes the fetch), so no result is produced. -/
theorem C6_days_invalido (symbol : String) (fetch : Except Erro (List Bar))
    (days : Option ℤ) (vt : String) (hoje hora : ℕ)
    (h : days = none ∨ ∃ d, days = some d ∧ d < 1) :
    calcular_volume_comparativo symbol fetch days vt hoje hora =
      .error (.valueError "O parametro days deve ser inteiro >= 1.") := by
  rcases h with rfl | ⟨d, rfl, hd⟩
  · rfl
  · have hred : calcular_volume_comparativo symbol fetch (some d) vt hoje hora
        = if d < 1 then
          .error (.valueError "O parametro days deve ser inteiro >= 1.")
        else (match fetch with
          | .error e => .error e
          | .ok df => agregar symbol df d vt hoje hora) := rfl
    rw [hred, if_pos hd]

/-- Witness for C6: `days = 0` fails even though the fetch itself would
fail with a different error (showing the guard fires first). -/
theorem C6_days_invalido_witness :
    (some (0 : ℤ) = none ∨ ∃ d, some (0 : ℤ) = some d ∧ d < 1) ∧
    calcular_volume_comparativo "WIN" (.error (.runtimeError "sem conexao"))
      (some 0) "tick" 14 600 =
      .error (.valueError "O parametro days deve ser inteiro >= 1.") :=
  ⟨Or.inr ⟨0, rfl, by norm_num⟩,
    C6_days_invalido "WIN" (.error (.runtimeError "sem conexao")) (some 0)
      "tick" 14 600 (Or.inr ⟨0, rfl, by norm_num⟩)⟩

/-- C7: the controller boundary is total and uniform: for every input it
returns either the complete result of the core or the single tagged error
carrying exactly the message of the exception the core raised — never a
partial result and never an unconverted exception. -/
theorem C7_controlador (symbol : String) (fetch : Except Erro (List Bar))
    (days : Option ℤ) (vt : String) (hoje hora : ℕ) :
    (∃ r, calcular_volume_comparativo symbol fetch days vt hoje hora
        = .ok r ∧
      obter_comparacao symbol fetch days vt hoje hora = .resultado r) ∨
    (∃ e, calcular_volume_comparativo symbol fetch days vt hoje hora
        = .error e ∧
      obter_comparacao symbol fetch days vt hoje hora = .erro e.msg) := by
  unfold obter_comparacao
  cases h : calcular_volume_comparativo symbol fetch days vt hoje hora with
  | ok r => exact Or.inl ⟨r, rfl, rfl⟩
  | error e => exact Or.inr ⟨e, rfl, rfl⟩

/-- C8: in the `try/finally` of `obter_dados`, `shutdown` is invoked
exactly when initialization succeeded — on success, validation failure and
provider error alike (the body outcome `busca` is arbitrary) — and a
`shutdown` failure never changes the call outcome: the result is the same
whatever `shutdown_falha` is, so an in-flight fetch error still
propagates. -/
theorem C8_ciclo_conexao (env : Mt5Env) :
    ((obter_dados_sessao env).shutdown_chamado = env.init_ok) ∧
    (∀ b : Bool, (obter_dados_sessao ⟨env.init_ok, env.busca, b⟩).resultado
      = (obter_dados_sessao env).resultado) := by
  cases env with
  | mk i busca falha => cases i <;> exact ⟨rfl, fun _ => rfl⟩

/-- C9: the aggregation is deterministic — a pure function of
(symbol, fetched bars, days, volume type, now): identical inputs give
identical results, with no hidden state. -/
theorem C9_determinismo (s1 s2 : String) (f1 f2 : Except Erro (List Bar))
    (d1 d2 : Option ℤ) (v1 v2 : String) (h1 h2 t1 t2 : ℕ)
    (hs : s1 = s2) (hf : f1 = f2) (hd : d1 = d2) (hv : v1 = v2)
    (hh : h1 = h2) (ht : t1 = t2) :
    calcular_volume_comparativo s1 f1 d1 v1 h1 t1 =
      calcular_volume_comparativo s2 f2 d2 v2 h2 t2 := by
  subst hs; subst hf; subst hd; subst hv; subst hh; subst ht
  rfl

/-- Witness for C9 at concrete equal inputs. -/
theorem C9_determinismo_witness :
    ("WIN" : String) = "WIN" ∧
    (Except.ok df_exemplo : Except Erro (List Bar)) = .ok df_exemplo ∧
    (some (3 : ℤ)) = some 3 ∧ ("tick" : String) = "tick" ∧
    (14 : ℕ) = 14 ∧ (600 : ℕ) = 600 ∧
    calcular_volume_comparativo "WIN" (.ok df_exemplo) (some 3) "tick" 14 600
      = calcular_volume_comparativo "WIN" (.ok df_exemplo) (some 3) "tick"
        14 600 :=
  ⟨rfl, rfl, rfl, rfl, rfl, rfl,
    C9_determinismo "WIN" "WIN" (.ok df_exemplo) (.ok df_exemplo) (some 3)
      (some 3) "tick" "tick" 14 14 600 600 rfl rfl rfl rfl rfl rfl⟩

/-- C10: when every selected-volume value of the series is nonnegative, a
successful comparison reports nonnegative `vol_hoje`, `vol_ontem` and
`vol_medio`, and both percentage deltas are at least -100 (each is either
0 by the guard or `(vol_hoje - v) / v * 100` with `v > 0` and
`vol_hoje ≥ 0`). -/
theorem C10_limites (symbol : String) (df : List Bar) (days : ℤ)
    (vt : String) (hoje hora : ℕ) (r : Resultado)
    (hnn : ∀ b ∈ df, 0 ≤ col_volume vt b)
    (hok : calcular_volume_comparativo symbol (.ok df) (some days) vt hoje
      hora = .ok r) :
    0 ≤ r.vol_hoje ∧ 0 ≤ r.vol_ontem ∧ 0 ≤ r.vol_medio ∧
    -100 ≤ r.perc_ontem ∧ -100 ≤ r.perc_medio := by
  obtain ⟨_, ontem, _, hr⟩ := calcular_ok_inv hok
  subst hr
  rw [montar_vol_hoje, montar_vol_ontem, montar_vol_medio,
    montar_perc_ontem, montar_perc_medio]
  exact ⟨sum_cutoff_nonneg hnn hoje hora, sum_cutoff_nonneg hnn ontem hora,
    vol_medio_de_nonneg hnn hoje hora days,
    perc_de_ge_neg_cem (sum_cutoff_nonneg hnn hoje hora),
    perc_de_ge_neg_cem (sum_cutoff_nonneg hnn hoje hora)⟩

/-- Witness for C10 at `df_exemplo`. -/
theorem C10_limites_witness :
    (∀ b ∈ df_exemplo, 0 ≤ col_volume "tick" b) ∧
    (0 ≤ (montar "WIN" df_exemplo 3 "tick" 14 600 10).vol_hoje ∧
    0 ≤ (montar "WIN" df_exemplo 3 "tick" 14 600 10).vol_ontem ∧
    0 ≤ (montar "WIN" df_exemplo 3 "tick" 14 600 10).vol_medio ∧
    -100 ≤ (montar "WIN" df_exemplo 3 "tick" 14 600 10).perc_ontem ∧
    -100 ≤ (montar "WIN" df_exemplo 3 "tick" 14 600 10).perc_medio) :=
  ⟨by norm_num [df_exemplo, col_volume],
    C10_limites "WIN" df_exemplo 3 "tick" 14 600
      (montar "WIN" df_exemplo 3 "tick" 14 600 10)
      (by norm_num [df_exemplo, col_volume]) eval_calcular_exemplo⟩

end MtcliVc
